import Mathlib

/-!
Shallow embedding of the MACE tensorflow-to-IR converter
(mace/python/tools/converter_tool/tensorflow_converter.py).

Source ops are modelled as records carrying the fields the converter
actually reads.  Constant materialization (the external `eval` calls into
the tensorflow engine) is modelled by attaching the materialized values to
each tensor endpoint: `ival` is the flat row-major value viewed as 32-bit
integers (`.eval().astype(np.int32).flat`), `fval` the same value viewed as
32-bit floats (`.eval().astype(np.float32).flat`, modelled over ℚ), and
`valueDims` the shape of the materialized array.  Fallible python code
(IndexError, KeyError, ValueError from `get_attr`, numpy truth-value
errors, and `mace_check` failures) is modelled with `Except ConvError`.
The square root used by the FusedBatchNorm fold (`math.sqrt`, an external
math-library call on floats) is passed in as an explicit function
parameter `sq`; every structural statement below holds for all `sq`.
-/

/-- Dtype tag of a tensorflow constant, as read from its `dtype` attribute. -/
inductive TFDataType
  | float32
  | int32
  | other (nm : String)
  deriving DecidableEq, Repr

/-- Typed attribute value of a source node. -/
inductive AttrValue
  | s (v : String)
  | i (v : Int)
  | f (v : ℚ)
  | ints (v : List Int)
  | b (v : Bool)
  | dt (v : TFDataType)
  deriving DecidableEq, Repr

/-- One tensor endpoint of the source graph, with its static shape
annotation (`.shape.as_list()`), its externally materialized value
(`ival` / `fval` / `valueDims`, see module comment), the kind of the op
producing it (`.op.type`) and the static shape of the producing op first
input (`.op.inputs[0].shape.as_list()`, read by the Reshape-from-Shape
rule). -/
structure TFEndpoint where
  name : String
  shape : List Int
  ival : List Int
  fval : List ℚ
  valueDims : List Int
  producerType : String
  producerInput0Shape : List Int
  deriving DecidableEq, Repr

/-- One source op. -/
structure TFOp where
  name : String
  type : String
  inputs : List TFEndpoint
  outputs : List TFEndpoint
  attrs : List (String × AttrValue)
  deriving DecidableEq, Repr

/-- IR tensor dtype (mace_pb2 data types used by this converter). -/
inductive MaceDataType
  | DT_FLOAT
  | DT_INT32
  deriving DecidableEq, Repr

/-- Value of one IR op argument (scalar int, scalar float, string, int list). -/
inductive ArgValue
  | i (v : Int)
  | f (v : ℚ)
  | s (v : String)
  | ints (v : List Int)
  deriving DecidableEq, Repr

/-- One named IR op argument. -/
structure Arg where
  name : String
  value : ArgValue
  deriving DecidableEq, Repr

/-- One IR op. -/
structure IROp where
  name : String
  type : String
  input : List String
  output : List String
  output_shape : List (List Int)
  arg : List Arg
  deriving DecidableEq, Repr

/-- One IR tensor of the tensor pool. -/
structure IRTensor where
  name : String
  dims : List Int
  data_type : MaceDataType
  float_data : List ℚ
  int32_data : List Int
  deriving DecidableEq, Repr

/-- The IR under construction (the net-level constant filter-format tag is
omitted: it is set once at start and never read by this pass). -/
structure NetDef where
  op : List IROp
  tensors : List IRTensor
  deriving DecidableEq, Repr

/-- Mutable state of the pass: the IR plus the skip set `_skip_tensor`.
The python skip set is only ever tested for membership, so a list with
membership testing models it faithfully. -/
structure ConvState where
  net : NetDef
  skip : List String
  deriving DecidableEq, Repr

/-- Failure of the pass: `maceCheck` is a `mace_check` validation failure
carrying its message; the others model the python exceptions raised by
attribute lookup (`ValueError`), dict lookup (`KeyError`), sequence
indexing (`IndexError`), numpy truth-value errors (`ValueError` on
arrays), and operations on wrongly-typed attribute values. -/
inductive ConvError
  | maceCheck (msg : String)
  | attrError (key : String)
  | keyError
  | indexError
  | valueError
  | typeError
  deriving DecidableEq, Repr

/-- The declared conversion configuration: graph-input node names and
graph-output node names (the shapes attached to input nodes are consumed
by the out-of-scope shape-override step, not by this pass). -/
structure ConversionConfig where
  input_nodes : List String
  output_nodes : List String
  deriving DecidableEq, Repr

/-- Modelled from the spec: the closed padding-mode enum table of
base_converter (absent from src), a static mapping to IR numeric codes. -/
inductive PaddingMode
  | VALID
  | SAME
  | FULL
  deriving DecidableEq, Repr

/-- Numeric IR code of a padding mode. -/
def PaddingMode.value : PaddingMode → Int
  | .VALID => 0
  | .SAME => 1
  | .FULL => 2

/-- Modelled from the spec: the closed pooling-kind enum table of
base_converter (absent from src). -/
inductive PoolingType
  | AVG
  | MAX
  deriving DecidableEq, Repr

/-- Numeric IR code of a pooling kind. -/
def PoolingType.value : PoolingType → Int
  | .AVG => 1
  | .MAX => 2

/-- Modelled from the spec: the closed elementwise-kind enum table of
base_converter (absent from src). -/
inductive EltwiseType
  | SUM
  | SUB
  | PROD
  | DIV
  | MIN
  | MAX
  | NEG
  | ABS
  | SQR_DIFF
  | POW
  deriving DecidableEq, Repr

/-- Numeric IR code of an elementwise kind. -/
def EltwiseType.value : EltwiseType → Int
  | .SUM => 0
  | .SUB => 1
  | .PROD => 2
  | .DIV => 3
  | .MIN => 4
  | .MAX => 5
  | .NEG => 6
  | .ABS => 7
  | .SQR_DIFF => 8
  | .POW => 9

/-- Modelled from the spec: the closed activation-kind enum table of
base_converter (absent from src); `nameStr` is the enum member name
stored as the string argument value. -/
inductive ActivationType
  | RELU
  | RELUX
  | TANH
  | SIGMOID
  deriving DecidableEq, Repr

/-- Enum member name of an activation kind. -/
def ActivationType.nameStr : ActivationType → String
  | .RELU => "RELU"
  | .RELUX => "RELUX"
  | .TANH => "TANH"
  | .SIGMOID => "SIGMOID"

/-- Modelled from the spec: the numeric code of the fixed channels-last
data-format tag attached to every emitted op. -/
def DataFormatNHWC : Int := 0

/-- Modelled from the spec: the MaceKeyword argument-name constants of
base_converter (absent from src); the claims reference arguments through
these symbolic names, their exact spelling carries no logic. -/
def mace_data_format_str : String := "data_format"

/-- Argument name for the padding-mode code. -/
def mace_padding_str : String := "padding"

/-- Argument name for the spatial strides. -/
def mace_strides_str : String := "strides"

/-- Argument name for the spatial dilations. -/
def mace_dilations_str : String := "dilations"

/-- Argument name for the pooling kind code. -/
def mace_pooling_type_str : String := "pooling_type"

/-- Argument name for the pooling kernel size. -/
def mace_kernel_str : String := "kernels"

/-- Argument name for the elementwise kind code. -/
def mace_element_type_str : String := "type"

/-- Argument name for the activation kind. -/
def mace_activation_type_str : String := "activation"

/-- Argument name for the Relu6 upper clamp. -/
def mace_activation_max_limit_str : String := "max_limit"

/-- Argument name for the concat axis. -/
def mace_axis_str : String := "axis"

/-- Argument name for the reshape target shape. -/
def mace_shape_str : String := "shape"

/-- Argument name for the resize target size. -/
def mace_resize_size_str : String := "size"

/-- Argument name for align_corners. -/
def mace_align_corners_name : String := "align_corners"

/-- Argument name for the space-batch block shape. -/
def mace_space_batch_block_shape_str : String := "block_shape"

/-- Argument name for the batch-to-space crops. -/
def mace_batch_to_space_crops_str : String := "crops"

/-- Argument name for paddings. -/
def mace_paddings_str : String := "paddings"

/-- Argument name for the space-depth block size. -/
def mace_space_depth_block_size_str : String := "block_size"

/-- Argument name for the pad fill value. -/
def mace_constant_value_str : String := "constant_value"

/-- Source attribute key constants (tensorflow_converter.py lines 36-43). -/
def tf_padding_str : String := "padding"

/-- Source attribute key for strides. -/
def tf_strides_str : String := "strides"

/-- Source attribute key for dilations. -/
def tf_dilations_str : String := "dilations"

/-- Source attribute key for the pooling kernel size. -/
def tf_kernel_str : String := "ksize"

/-- Source attribute key for the batchnorm epsilon. -/
def tf_epsilon_str : String := "epsilon"

/-- Source attribute key for align_corners. -/
def tf_align_corners : String := "align_corners"

/-- Source attribute key for the space-depth block size. -/
def tf_block_size : String := "block_size"

/-- The padding_mode dict: source padding string to padding mode. -/
def padding_mode : String → Option PaddingMode
  | "VALID" => some .VALID
  | "SAME" => some .SAME
  | "FULL" => some .FULL
  | _ => none

/-- The source-side padding string naming a padding mode; these are
exactly the keys of the padding_mode dict. -/
def padding_str_of : PaddingMode → String
  | .VALID => "VALID"
  | .SAME => "SAME"
  | .FULL => "FULL"

/-- The pooling_type_mode dict: source op kind to pooling kind. -/
def pooling_type_mode : String → Option PoolingType
  | "AvgPool" => some .AVG
  | "MaxPool" => some .MAX
  | _ => none

/-- The eltwise_type dict: source op kind to elementwise kind. -/
def eltwise_type : String → Option EltwiseType
  | "Add" => some .SUM
  | "Sub" => some .SUB
  | "Mul" => some .PROD
  | "Div" => some .DIV
  | "Min" => some .MIN
  | "Max" => some .MAX
  | "Neg" => some .NEG
  | "Abs" => some .ABS
  | "RealDiv" => some .DIV
  | "SquaredDifference" => some .SQR_DIFF
  | "Pow" => some .POW
  | _ => none

/-- The activation_type dict: source op kind to activation kind. -/
def activation_type : String → Option ActivationType
  | "Relu" => some .RELU
  | "Relu6" => some .RELUX
  | "Tanh" => some .TANH
  | "Sigmoid" => some .SIGMOID
  | _ => none

/-- Python sequence indexing `tf_op.inputs[i]`, raising IndexError when out
of range. -/
def getInput (tfop : TFOp) (i : Nat) : Except ConvError TFEndpoint :=
  match tfop.inputs[i]? with
  | some e => .ok e
  | none => .error .indexError

/-- Python negative indexing `tf_op.inputs[-1]`. -/
def getLastInput (tfop : TFOp) : Except ConvError TFEndpoint :=
  match tfop.inputs.getLast? with
  | some e => .ok e
  | none => .error .indexError

/-- Python `tf_op.get_attr(key)`, raising ValueError when the attribute is
absent. -/
def getAttr (tfop : TFOp) (key : String) : Except ConvError AttrValue :=
  match tfop.attrs.lookup key with
  | some v => .ok v
  | none => .error (.attrError key)

/-- Coerce an attribute value used as a string. -/
def asStr : AttrValue → Except ConvError String
  | .s v => .ok v
  | _ => .error .typeError

/-- Coerce an attribute value used as an int list. -/
def asInts : AttrValue → Except ConvError (List Int)
  | .ints v => .ok v
  | _ => .error .typeError

/-- Coerce an attribute value used as a float scalar. -/
def asFloat : AttrValue → Except ConvError ℚ
  | .f v => .ok v
  | _ => .error .typeError

/-- Coerce an attribute value used as an int scalar. -/
def asInt : AttrValue → Except ConvError Int
  | .i v => .ok v
  | _ => .error .typeError

/-- Coerce an attribute value used as a bool. -/
def asBool : AttrValue → Except ConvError Bool
  | .b v => .ok v
  | _ => .error .typeError

/-- Python dict subscript lookup, raising KeyError on a miss. -/
def dictGet {α : Type} (o : Option α) : Except ConvError α :=
  match o with
  | some v => .ok v
  | none => .error .keyError

/-- The mace_check assertion: continue when the condition holds, abort the
whole pass with the given message otherwise. -/
def mace_check (c : Prop) [Decidable c] (msg : String) : Except ConvError Unit :=
  if c then .ok () else .error (.maceCheck msg)

/-- Extraction of a numpy value used as an int scalar (0-d or one-element
array); any other extent makes the surrounding python raise (truth-value
ambiguity or empty-array errors). -/
def scalarInt : List Int → Except ConvError Int
  | [a] => .ok a
  | _ => .error .valueError

/-- The get_scope helper (source lines 213-219): `rfind` of the last slash
returns the prefix before it, and the whole name when no slash occurs.
`get_scope_aux` returns the characters before the last slash when one
exists. -/
def get_scope_aux : List Char → Option (List Char)
  | [] => none
  | c :: cs =>
    match get_scope_aux cs with
    | some t => some (c :: t)
    | none => if c = '/' then some [] else none

/-- Python `tensor_name[:tensor_name.rfind(chr(47))]` with the rfind = -1
case returning the whole name. -/
def get_scope (tensor_name : String) : String :=
  match get_scope_aux tensor_name.data with
  | some t => String.mk t
  | none => tensor_name

/-- Append one op to the IR. -/
def addOp (st : ConvState) (op : IROp) : ConvState :=
  { st with net := { st.net with op := st.net.op ++ [op] } }

/-- The add_tensor helper (source lines 251-256): append one float tensor
to the pool. -/
def add_tensor (st : ConvState) (nm : String) (shape : List Int)
    (data_type : MaceDataType) (value : List ℚ) : ConvState :=
  { st with net := { st.net with tensors := st.net.tensors ++
      [{ name := nm, dims := shape, data_type := data_type,
         float_data := value, int32_data := [] }] } }

/-- Add one endpoint name to the skip set. -/
def skipAdd (st : ConvState) (nm : String) : ConvState :=
  { st with skip := nm :: st.skip }

/-- Add several endpoint names to the skip set (`set.update`). -/
def skipUpdate (st : ConvState) (nms : List String) : ConvState :=
  { st with skip := nms ++ st.skip }

/-- The convert_general_op template (source lines 261-273): copy name,
type, inputs, outputs and per-output static shapes, and attach the fixed
channels-last data-format argument. -/
def convert_general_op (tfop : TFOp) : IROp :=
  { name := tfop.name
    type := tfop.type
    input := tfop.inputs.map TFEndpoint.name
    output := tfop.outputs.map TFEndpoint.name
    output_shape := tfop.outputs.map TFEndpoint.shape
    arg := [{ name := mace_data_format_str, value := .i DataFormatNHWC }] }

/-- The convert_nop rule: Shape, Placeholder and Const contribute no IR op. -/
def convert_nop (_tfop : TFOp) (st : ConvState) : Except ConvError ConvState :=
  .ok st

/-- The convert_identity rule (Squeeze and Identity). -/
def convert_identity (tfop : TFOp) (st : ConvState) : Except ConvError ConvState :=
  .ok (addOp st { convert_general_op tfop with type := "Identity" })

/-- The convert_biasadd rule. -/
def convert_biasadd (tfop : TFOp) (st : ConvState) : Except ConvError ConvState :=
  .ok (addOp st { convert_general_op tfop with type := "BiasAdd" })

/-- The convert_softmax rule. -/
def convert_softmax (tfop : TFOp) (st : ConvState) : Except ConvError ConvState :=
  .ok (addOp st { convert_general_op tfop with type := "Softmax" })

/-- The convert_matmul rule. -/
def convert_matmul (tfop : TFOp) (st : ConvState) : Except ConvError ConvState :=
  .ok (addOp st { convert_general_op tfop with type := "MatMul" })

/-- The convert_elementwise rule (source lines 304-310): Eltwise with the
kind code looked up from the eltwise_type dict. -/
def convert_elementwise (tfop : TFOp) (st : ConvState) : Except ConvError ConvState := do
  let op0 := convert_general_op tfop
  let et ← dictGet (eltwise_type tfop.type)
  .ok (addOp st { op0 with
    type := "Eltwise"
    arg := op0.arg ++ [{ name := mace_element_type_str, value := .i et.value }] })

/-- The convert_add rule (source lines 316-321): binary Add becomes
Eltwise, any other arity becomes AddN. -/
def convert_add (tfop : TFOp) (st : ConvState) : Except ConvError ConvState :=
  if tfop.inputs.length = 2 then
    convert_elementwise tfop st
  else
    .ok (addOp st { convert_general_op tfop with type := "AddN" })

/-- The convert_activation rule (source lines 323-334). -/
def convert_activation (tfop : TFOp) (st : ConvState) : Except ConvError ConvState := do
  let op0 := convert_general_op tfop
  let act ← dictGet (activation_type tfop.type)
  let op1 := { op0 with
    type := "Activation"
    arg := op0.arg ++ [{ name := mace_activation_type_str, value := .s act.nameStr }] }
  let op2 :=
    if tfop.type = "Relu6" then
      { op1 with arg := op1.arg ++ [{ name := mace_activation_max_limit_str, value := .f 6 }] }
    else op1
  .ok (addOp st op2)

/-- The convert_conv2d rule (source lines 279-302). -/
def convert_conv2d (tfop : TFOp) (st : ConvState) : Except ConvError ConvState := do
  let op0 := convert_general_op tfop
  let irType :=
    if tfop.type = "DepthwiseConv2dNative" then "DepthwiseConv2d"
    else if tfop.type = "Conv2DBackpropInput" then "Deconv2D"
    else "Conv2D"
  let pv ← getAttr tfop tf_padding_str
  let ps ← asStr pv
  let pm ← dictGet (padding_mode ps)
  let sv ← getAttr tfop tf_strides_str
  let sl ← asInts sv
  let op1 := { op0 with
    type := irType
    arg := op0.arg ++
      [{ name := mace_padding_str, value := .i pm.value },
       { name := mace_strides_str, value := .ints ((sl.drop 1).take 2) }] }
  if irType = "Deconv2D" then
    .ok (addOp st op1)
  else do
    let dilv ←
      (match tfop.attrs.lookup tf_dilations_str with
       | some (.ints dl) => Except.ok ((dl.drop 1).take 2)
       | some _ => Except.error ConvError.typeError
       | none => Except.ok [1, 1])
    .ok (addOp st { op1 with
      arg := op1.arg ++ [{ name := mace_dilations_str, value := .ints dilv }] })

/-- The convert_pooling rule (source lines 363-377). -/
def convert_pooling (tfop : TFOp) (st : ConvState) : Except ConvError ConvState := do
  let op0 := convert_general_op tfop
  let pt ← dictGet (pooling_type_mode tfop.type)
  let pv ← getAttr tfop tf_padding_str
  let ps ← asStr pv
  let pm ← dictGet (padding_mode ps)
  let sv ← getAttr tfop tf_strides_str
  let sl ← asInts sv
  let kv ← getAttr tfop tf_kernel_str
  let kl ← asInts kv
  .ok (addOp st { op0 with
    type := "Pooling"
    arg := op0.arg ++
      [{ name := mace_pooling_type_str, value := .i pt.value },
       { name := mace_padding_str, value := .i pm.value },
       { name := mace_strides_str, value := .ints ((sl.drop 1).take 2) },
       { name := mace_kernel_str, value := .ints ((kl.drop 1).take 2) }] })

/-- The convert_fused_batchnorm rule (source lines 336-361).  The external
float square root (`math.sqrt`) is the parameter `sq`.  The four parameter
vectors are rank-1, so the shape of the synthesized numpy arrays is their
single length. -/
def convert_fused_batchnorm (sq : ℚ → ℚ) (tfop : TFOp) (st : ConvState) :
    Except ConvError ConvState := do
  let op0 := { convert_general_op tfop with type := "FoldedBatchNorm" }
  let gamma ← getInput tfop 1
  let beta ← getInput tfop 2
  let mean ← getInput tfop 3
  let var ← getInput tfop 4
  let ev ← getAttr tfop tf_epsilon_str
  let epsilon ← asFloat ev
  let scale_name := get_scope tfop.name ++ "/scale:0"
  let offset_name := get_scope tfop.name ++ "/offset:0"
  let scale_value := List.zipWith (fun v g => 1 / sq (v + epsilon) * g) var.fval gamma.fval
  let offset_value := List.zipWith3 (fun m s b => -m * s + b) mean.fval scale_value beta.fval
  let st1 := add_tensor st scale_name [(scale_value.length : Int)] .DT_FLOAT scale_value
  let st2 := add_tensor st1 offset_name [(offset_value.length : Int)] .DT_FLOAT offset_value
  let st3 := skipUpdate st2 ((tfop.inputs.map TFEndpoint.name).drop 1)
  let op1 := { op0 with
    input := op0.input.take 1 ++ [scale_name, offset_name]
    output := op0.output.take 1
    output_shape := op0.output_shape.take 1 }
  .ok (addOp st3 op1)

/-- The convert_resize_bilinear rule (source lines 383-395). -/
def convert_resize_bilinear (tfop : TFOp) (st : ConvState) : Except ConvError ConvState := do
  let op0 := convert_general_op tfop
  let op1 := { op0 with type := "ResizeBilinear", input := op0.input.take 1 }
  let sizeEp ← getInput tfop 1
  let av ← getAttr tfop tf_align_corners
  let ac ← asBool av
  let op2 := { op1 with arg := op1.arg ++
    [{ name := mace_resize_size_str, value := .ints sizeEp.ival },
     { name := mace_align_corners_name, value := .i (if ac then 1 else 0) }] }
  .ok (skipAdd (addOp st op2) sizeEp.name)

/-- The convert_space_batch rule (source lines 397-419). -/
def convert_space_batch (tfop : TFOp) (st : ConvState) : Except ConvError ConvState := do
  let op0 := convert_general_op tfop
  let op1 := { op0 with input := op0.input.take 1 }
  let blockEp ← getInput tfop 1
  let cpEp ← getInput tfop 2
  let irType := if tfop.type = "BatchToSpaceND" then "BatchToSpaceND" else "SpaceToBatchND"
  let cpName :=
    if tfop.type = "BatchToSpaceND" then mace_batch_to_space_crops_str else mace_paddings_str
  let op2 := { op1 with
    type := irType
    arg := op1.arg ++
      [{ name := mace_space_batch_block_shape_str, value := .ints blockEp.ival },
       { name := cpName, value := .ints cpEp.ival }] }
  .ok (skipAdd (skipAdd (addOp st op2) blockEp.name) cpEp.name)

/-- The convert_space_depth rule (source lines 421-430). -/
def convert_space_depth (tfop : TFOp) (st : ConvState) : Except ConvError ConvState := do
  let op0 := convert_general_op tfop
  let irType := if tfop.type = "SpaceToDepth" then "SpaceToDepth" else "DepthToSpace"
  let bv ← getAttr tfop tf_block_size
  let bs ← asInt bv
  .ok (addOp st { op0 with
    type := irType
    arg := op0.arg ++ [{ name := mace_space_depth_block_size_str, value := .i bs }] })

/-- The convert_pad rule (source lines 432-448). -/
def convert_pad (tfop : TFOp) (st : ConvState) : Except ConvError ConvState := do
  let op0 := convert_general_op tfop
  let op1 := { op0 with type := "Pad", input := op0.input.take 1 }
  let padEp ← getInput tfop 1
  let op2 := { op1 with arg := op1.arg ++
    [{ name := mace_paddings_str, value := .ints padEp.ival }] }
  if tfop.inputs.length = 3 then do
    let cvEp ← getInput tfop 2
    let cv ←
      (match cvEp.ival with
       | c :: _ => Except.ok c
       | [] => Except.error ConvError.indexError)
    let op3 := { op2 with arg := op2.arg ++
      [{ name := mace_constant_value_str, value := .i cv }] }
    .ok (skipAdd (skipAdd (addOp st op3) padEp.name) cvEp.name)
  else
    .ok (skipAdd (addOp st op2) padEp.name)

/-- The convert_concat rule (source lines 450-463). -/
def convert_concat (tfop : TFOp) (st : ConvState) : Except ConvError ConvState := do
  let op0 := convert_general_op tfop
  if op0.input = [] then .error .indexError else do
  let op1 := { op0 with type := "Concat", input := op0.input.dropLast }
  let axEp ← getLastInput tfop
  let a ← scalarInt axEp.ival
  let axis := if a < 0 then 4 + a else a
  let op2 := { op1 with arg := op1.arg ++ [{ name := mace_axis_str, value := .i axis }] }
  let _ ← mace_check (axis = 3) "only support concat at channel dimension"
  .ok (skipAdd (addOp st op2) axEp.name)

/-- The convert_reshape rule (source lines 469-486). -/
def convert_reshape (tfop : TFOp) (st : ConvState) : Except ConvError ConvState := do
  let op0 := convert_general_op tfop
  let op1 := { op0 with type := "Reshape", input := op0.input.take 1 }
  let ep1 ← getInput tfop 1
  if ep1.producerType = "Const" then do
    let shape_value := ep1.ival.map (fun x => if x = -1 then 1 else x)
    let lastEp ← getLastInput tfop
    let op2 := { op1 with arg := op1.arg ++
      [{ name := mace_shape_str, value := .ints shape_value }] }
    .ok (skipAdd (addOp st op2) lastEp.name)
  else if ep1.producerType = "Shape" then
    .ok (addOp st { op1 with arg := op1.arg ++
      [{ name := mace_shape_str, value := .ints ep1.producerInput0Shape }] })
  else
    .ok (addOp st { op1 with arg := op1.arg ++
      [{ name := mace_shape_str, value := .ints [] }] })

/-- The convert_transpose rule (source lines 488-500): the permutation must
equal its ascending numpy sort. -/
def convert_transpose (tfop : TFOp) (st : ConvState) : Except ConvError ConvState := do
  let permEp ← getInput tfop 1
  let perm := permEp.ival
  let ordered_perm := perm.mergeSort (fun a b => decide (a ≤ b))
  let _ ← mace_check (perm = ordered_perm)
    "Transpose not supported yet, only internal transpose in composed ops might be supported"
  let op0 := convert_general_op tfop
  let op1 := { op0 with type := "Identity", input := op0.input.take 1 }
  .ok (skipAdd (addOp st op1) permEp.name)

/-- The convert_mean rule (source lines 502-524): only the first two
materialized axes are inspected. -/
def convert_mean (tfop : TFOp) (st : ConvState) : Except ConvError ConvState := do
  let op0 := convert_general_op tfop
  let op1 := { op0 with input := op0.input.take 1 }
  let axEp ← getInput tfop 1
  match axEp.ival with
  | a :: b :: _ => do
    let _ ← mace_check (a = 1 ∧ b = 2) "Mean only support reduce dim 1, 2"
    let inEp ← getInput tfop 0
    let op2 := { op1 with
      type := "Pooling"
      arg := op1.arg ++
        [{ name := mace_pooling_type_str, value := .i PoolingType.AVG.value },
         { name := mace_padding_str, value := .i PaddingMode.VALID.value },
         { name := mace_strides_str, value := .ints [1, 1] },
         { name := mace_kernel_str, value := .ints ((inEp.shape.drop 1).take 2) }] }
    .ok (skipAdd (addOp st op2) axEp.name)
  | _ => .error .indexError

/-- Emission of one constant node into the tensor pool (source lines
235-249): dims copied from the materialized array, payload flattened
row-major, dtype restricted to float32 and int32. -/
def emit_tensor (tfop : TFOp) : Except ConvError IRTensor := do
  let out0 ←
    (match tfop.outputs with
     | o :: _ => Except.ok o
     | [] => Except.error ConvError.indexError)
  let dv ← getAttr tfop "dtype"
  let dt ←
    (match dv with
     | .dt d => Except.ok d
     | _ => Except.error ConvError.typeError)
  match dt with
  | .float32 =>
    .ok { name := out0.name, dims := out0.valueDims, data_type := .DT_FLOAT,
          float_data := out0.fval, int32_data := [] }
  | .int32 =>
    .ok { name := out0.name, dims := out0.valueDims, data_type := .DT_INT32,
          float_data := [], int32_data := out0.ival }
  | .other nm => .error (.maceCheck ("Not supported tensor type: " ++ nm))

/-- The convert_tensors loop (source lines 229-249): walk the source ops in
order and emit every Const whose first output endpoint is not in the skip
set. -/
def convert_tensors (ops : List TFOp) (st : ConvState) : Except ConvError ConvState :=
  match ops with
  | [] => .ok st
  | tfop :: rest =>
    if tfop.type = "Const" then
      match tfop.outputs with
      | [] => .error .indexError
      | o :: _ =>
        if o.name ∈ st.skip then convert_tensors rest st
        else do
          let t ← emit_tensor tfop
          convert_tensors rest
            { st with net := { st.net with tensors := st.net.tensors ++ [t] } }
    else convert_tensors rest st

/-- The op-converter dispatch dict (source lines 125-165). -/
def op_converters (sq : ℚ → ℚ) (t : String) :
    Option (TFOp → ConvState → Except ConvError ConvState) :=
  match t with
  | "Conv2D" => some convert_conv2d
  | "DepthwiseConv2dNative" => some convert_conv2d
  | "Conv2DBackpropInput" => some convert_conv2d
  | "BiasAdd" => some convert_biasadd
  | "Add" => some convert_add
  | "Sub" => some convert_elementwise
  | "Mul" => some convert_elementwise
  | "Div" => some convert_elementwise
  | "Min" => some convert_elementwise
  | "Max" => some convert_elementwise
  | "Neg" => some convert_elementwise
  | "Abs" => some convert_elementwise
  | "RealDiv" => some convert_elementwise
  | "SquaredDifference" => some convert_elementwise
  | "Pow" => some convert_elementwise
  | "Relu" => some convert_activation
  | "Relu6" => some convert_activation
  | "Tanh" => some convert_activation
  | "Sigmoid" => some convert_activation
  | "FusedBatchNorm" => some (convert_fused_batchnorm sq)
  | "AvgPool" => some convert_pooling
  | "MaxPool" => some convert_pooling
  | "Squeeze" => some convert_identity
  | "MatMul" => some convert_matmul
  | "Identity" => some convert_identity
  | "Reshape" => some convert_reshape
  | "Shape" => some convert_nop
  | "Transpose" => some convert_transpose
  | "Softmax" => some convert_softmax
  | "ResizeBilinear" => some convert_resize_bilinear
  | "Placeholder" => some convert_nop
  | "SpaceToBatchND" => some convert_space_batch
  | "BatchToSpaceND" => some convert_space_batch
  | "DepthToSpace" => some convert_space_depth
  | "SpaceToDepth" => some convert_space_depth
  | "Pad" => some convert_pad
  | "ConcatV2" => some convert_concat
  | "Mean" => some convert_mean
  | "Const" => some convert_nop
  | _ => none

/-- The per-op half of convert_ops (source lines 221-226): dispatch every
source op in order, aborting on an unknown kind. -/
def convert_ops_loop (sq : ℚ → ℚ) (ops : List TFOp) (st : ConvState) :
    Except ConvError ConvState :=
  match ops with
  | [] => .ok st
  | tfop :: rest =>
    match op_converters sq tfop.type with
    | none =>
      .error (.maceCheck ("Mace does not support tensorflow op type " ++ tfop.type ++ " yet"))
    | some conv => do
      let st1 ← conv tfop st
      convert_ops_loop sq rest st1

/-- The convert_ops driver (source lines 221-227): all ops, then the
tensor-emission pass over the same op sequence. -/
def convert_ops (sq : ℚ → ℚ) (ops : List TFOp) (st : ConvState) :
    Except ConvError ConvState := do
  let st1 ← convert_ops_loop sq ops st
  convert_tensors ops st1

/-- Python slicing `s[-2:]` on a string: the last two characters, or the
whole string when shorter. -/
def takeRight2 (s : String) : String :=
  String.mk (s.data.drop (s.data.length - 2))

/-- Python slicing `s[:-2]` on a string: everything but the last two
characters, empty when shorter. -/
def dropRight2 (s : String) : String :=
  String.mk (s.data.take (s.data.length - 2))

/-- The per-input-endpoint rewrite of replace_input_output_tensor_name
(source lines 190-195). -/
def replace_in_name (cfg : ConversionConfig) (s : String) : String :=
  if takeRight2 s = ":0" then
    let op_name := dropRight2 s
    if op_name ∈ cfg.input_nodes ∨ op_name ∈ cfg.output_nodes then op_name else s
  else s

/-- The per-output-endpoint rewrite of replace_input_output_tensor_name
(source lines 196-200). -/
def replace_out_name (cfg : ConversionConfig) (s : String) : String :=
  if takeRight2 s = ":0" then
    let op_name := dropRight2 s
    if op_name ∈ cfg.output_nodes then op_name else s
  else s

/-- The final endpoint-name rewriting pass (source lines 188-200). -/
def replace_input_output_tensor_name (cfg : ConversionConfig) (net : NetDef) : NetDef :=
  { net with op := net.op.map (fun op =>
      { op with
        input := op.input.map (replace_in_name cfg)
        output := op.output.map (replace_out_name cfg) }) }

/-- The empty state at pass start. -/
def initState : ConvState := { net := { op := [], tensors := [] }, skip := [] }

/-- The run driver (source lines 181-186): op conversion plus tensor
emission, then the endpoint rewriting pass, returning the finished IR. -/
def runConverter (sq : ℚ → ℚ) (ops : List TFOp) (cfg : ConversionConfig) :
    Except ConvError NetDef := do
  let st ← convert_ops sq ops initState
  .ok (replace_input_output_tensor_name cfg st.net)

/-- Split a character list at every slash (the slash-delimited segments of
a name). -/
def splitSlash : List Char → List (List Char)
  | [] => [[]]
  | c :: cs =>
    match splitSlash cs with
    | [] => [[]]
    | p :: ps => if c = '/' then [] :: p :: ps else (c :: p) :: ps

/-- Join segments back with slashes. -/
def joinSlash : List (List Char) → List Char
  | [] => []
  | [p] => p
  | p :: ps => p ++ '/' :: joinSlash ps

/-- Definition following the words of claim C1, for comparison with
get_scope: the op name with its final slash-delimited segment removed. -/
def scope_per_claim (s : String) : String :=
  String.mk (joinSlash (splitSlash s.data).dropLast)

/-- Test fixture: an endpoint with a name and defaulted remaining fields. -/
def epNamed (nm : String) : TFEndpoint :=
  { name := nm, shape := [], ival := [], fval := [], valueDims := [],
    producerType := "", producerInput0Shape := [] }

/-- Transparent constructor wrapper for source ops, listing the fields in
declaration order. -/
def mkOp (nm t : String) (ins outs : List TFEndpoint)
    (attrs : List (String × AttrValue)) : TFOp :=
  { name := nm, type := t, inputs := ins, outputs := outs, attrs := attrs }

/-- Sequential map over the conversion error monad, stopping at the first
failing element; used to characterize the tensor-emission loop. -/
def mapExcept {α β : Type} (f : α → Except ConvError β) : List α → Except ConvError (List β)
  | [] => .ok []
  | x :: xs => do
    let y ← f x
    let ys ← mapExcept f xs
    .ok (y :: ys)

theorem except_bind_ok {e a b : Type} (x : a) (f : a → Except e b) :
    (Except.ok x >>= f) = f x := rfl

theorem except_bind_error {e a b : Type} (err : e) (f : a → Except e b) :
    ((Except.error err : Except e a) >>= f) = Except.error err := rfl

theorem zipWith_fun_ext {α β γ : Type} (f g : α → β → γ) (h : ∀ a b, f a b = g a b) :
    ∀ (l1 : List α) (l2 : List β), List.zipWith f l1 l2 = List.zipWith g l1 l2
  | [], _ => by simp
  | _ :: _, [] => by simp
  | a :: l1, b :: l2 => by
    simp only [List.zipWith_cons_cons, h a b, zipWith_fun_ext f g h l1 l2]

theorem zipWith3_fun_ext {α β γ δ : Type} (f g : α → β → γ → δ)
    (h : ∀ a b c, f a b c = g a b c) :
    ∀ (l1 : List α) (l2 : List β) (l3 : List γ),
      List.zipWith3 f l1 l2 l3 = List.zipWith3 g l1 l2 l3
  | [], _, _ => by simp [List.zipWith3]
  | _ :: _, [], _ => by simp [List.zipWith3]
  | _ :: _, _ :: _, [] => by simp [List.zipWith3]
  | a :: l1, b :: l2, c :: l3 => by
    simp only [List.zipWith3, h a b c, zipWith3_fun_ext f g h l1 l2 l3]

/-- Claim C10: an Add source op with exactly two inputs becomes an Eltwise
IR op carrying the SUM kind code; any other input count, a single input
included, becomes an AddN IR op with no kind argument. -/
theorem convert_add_arity (nm : String) (a b : TFEndpoint) (ins outs : List TFEndpoint)
    (attrs : List (String × AttrValue)) (st : ConvState) :
    (convert_add (mkOp nm "Add" [a, b] outs attrs) st =
      .ok (addOp st
        { name := nm
          type := "Eltwise"
          input := [a.name, b.name]
          output := outs.map TFEndpoint.name
          output_shape := outs.map TFEndpoint.shape
          arg := [{ name := mace_data_format_str, value := .i DataFormatNHWC },
                  { name := mace_element_type_str, value := .i EltwiseType.SUM.value }] })) ∧
    (ins.length ≠ 2 →
      convert_add (mkOp nm "Add" ins outs attrs) st =
      .ok (addOp st
        { name := nm
          type := "AddN"
          input := ins.map TFEndpoint.name
          output := outs.map TFEndpoint.name
          output_shape := outs.map TFEndpoint.shape
          arg := [{ name := mace_data_format_str, value := .i DataFormatNHWC }] })) := by
  refine ⟨rfl, fun h => ?_⟩
  unfold convert_add mkOp
  rw [if_neg h]
  rfl

/-- Witness for C10: a one-input Add, evaluated to an AddN op. -/
theorem convert_add_arity_witness :
    convert_add (mkOp "a" "Add" [epNamed "x:0"] [] []) initState =
      .ok (addOp initState
        { name := "a"
          type := "AddN"
          input := ["x:0"]
          output := []
          output_shape := []
          arg := [{ name := mace_data_format_str, value := .i DataFormatNHWC }] }) :=
  (convert_add_arity "a" (epNamed "x:0") (epNamed "y:0") [epNamed "x:0"] [] []
    initState).2 (by decide)

/-- Claim C3: a Reshape with a constant second input records that input
materialized values, every -1 replaced by 1, as the shape argument and
skips the constant; a Reshape whose second input is produced by a Shape op
records the static shape of that Shape op first input; the second input is
dropped either way. -/
theorem convert_reshape_spec (nm : String) (x sEp : TFEndpoint) (outs : List TFEndpoint)
    (attrs : List (String × AttrValue)) (st : ConvState) :
    (sEp.producerType = "Const" →
      convert_reshape (mkOp nm "Reshape" [x, sEp] outs attrs) st =
      .ok
        { net :=
            { st.net with op := st.net.op ++
                [{ name := nm
                   type := "Reshape"
                   input := [x.name]
                   output := outs.map TFEndpoint.name
                   output_shape := outs.map TFEndpoint.shape
                   arg := [{ name := mace_data_format_str, value := .i DataFormatNHWC },
                           { name := mace_shape_str,
                             value := .ints
                               (sEp.ival.map (fun v => if v = -1 then 1 else v)) }] }] }
          skip := sEp.name :: st.skip }) ∧
    (sEp.producerType = "Shape" →
      convert_reshape (mkOp nm "Reshape" [x, sEp] outs attrs) st =
      .ok
        { net :=
            { st.net with op := st.net.op ++
                [{ name := nm
                   type := "Reshape"
                   input := [x.name]
                   output := outs.map TFEndpoint.name
                   output_shape := outs.map TFEndpoint.shape
                   arg := [{ name := mace_data_format_str, value := .i DataFormatNHWC },
                           { name := mace_shape_str,
                             value := .ints sEp.producerInput0Shape }] }] }
          skip := st.skip }) := by
  obtain ⟨snm, ssh, siv, sfv, svd, spt, spi⟩ := sEp
  constructor
  · intro h
    replace h : spt = "Const" := h
    subst h
    rfl
  · intro h
    replace h : spt = "Shape" := h
    subst h
    rfl

/-- Witness for C3: target shape list [-1, 10] resolves to argument
[1, 10] with the constant input skipped. -/
theorem convert_reshape_spec_witness :
    convert_reshape
      (mkOp "r" "Reshape"
        [epNamed "x:0", { epNamed "s:0" with ival := [-1, 10], producerType := "Const" }]
        [epNamed "r:0"] []) initState =
      .ok
        { net :=
            { op :=
                [{ name := "r"
                   type := "Reshape"
                   input := ["x:0"]
                   output := ["r:0"]
                   output_shape := [[]]
                   arg := [{ name := mace_data_format_str, value := .i DataFormatNHWC },
                           { name := mace_shape_str, value := .ints [1, 10] }] }]
              tensors := [] }
          skip := ["s:0"] } :=
  (convert_reshape_spec "r" (epNamed "x:0")
    { epNamed "s:0" with ival := [-1, 10], producerType := "Const" }
    [epNamed "r:0"] [] initState).1 rfl

/-- Claim C4: ConcatV2 with a constant scalar axis normalizes a negative
axis by adding 4, fails with the unsupported-pattern error exactly when
the normalized axis is not 3, and on success drops the axis input and
skips its endpoint. -/
theorem convert_concat_spec (nm : String) (ins : List TFEndpoint) (axEp : TFEndpoint)
    (outs : List TFEndpoint) (attrs : List (String × AttrValue)) (st : ConvState)
    (a : Int) (hax : axEp.ival = [a]) :
    (convert_concat (mkOp nm "ConcatV2" (ins ++ [axEp]) outs attrs) st =
       .error (.maceCheck "only support concat at channel dimension")
      ↔ (if a < 0 then 4 + a else a) ≠ 3) ∧
    ((if a < 0 then 4 + a else a) = 3 →
      convert_concat (mkOp nm "ConcatV2" (ins ++ [axEp]) outs attrs) st =
      .ok
        { net :=
            { st.net with op := st.net.op ++
                [{ name := nm
                   type := "Concat"
                   input := ins.map TFEndpoint.name
                   output := outs.map TFEndpoint.name
                   output_shape := outs.map TFEndpoint.shape
                   arg := [{ name := mace_data_format_str, value := .i DataFormatNHWC },
                           { name := mace_axis_str, value := .i 3 }] }] }
          skip := axEp.name :: st.skip }) := by
  obtain ⟨anm, ash, aiv, afv, avd, apt, api⟩ := axEp
  replace hax : aiv = [a] := hax
  subst hax
  unfold convert_concat mkOp
  simp only [convert_general_op, getLastInput, List.getLast?_concat,
    List.map_append, List.map_cons, List.map_nil, except_bind_ok, scalarInt]
  rw [if_neg (by simp)]
  simp only [List.dropLast_concat, mace_check]
  by_cases h3 : (if a < 0 then 4 + a else a) = 3
  · simp only [h3, if_true, except_bind_ok]
    exact ⟨iff_of_false (fun hc => Except.noConfusion hc) (by simp), fun _ => rfl⟩
  · rw [if_neg h3]
    exact ⟨iff_of_true rfl h3, fun hc => absurd hc h3⟩

/-- Witness for C4: a two-tensor concat whose negative axis -1 normalizes
to 3, evaluated to a successful Concat op with the axis input dropped and
skipped. -/
theorem convert_concat_spec_witness :
    convert_concat
      (mkOp "cc" "ConcatV2" [epNamed "x:0", { epNamed "ax:0" with ival := [-1] }]
        [epNamed "cc:0"] []) initState =
      .ok
        { net :=
            { op :=
                [{ name := "cc"
                   type := "Concat"
                   input := ["x:0"]
                   output := ["cc:0"]
                   output_shape := [[]]
                   arg := [{ name := mace_data_format_str, value := .i DataFormatNHWC },
                           { name := mace_axis_str, value := .i 3 }] }]
              tensors := [] }
          skip := ["ax:0"] } :=
  (convert_concat_spec "cc" [epNamed "x:0"] { epNamed "ax:0" with ival := [-1] }
    [epNamed "cc:0"] [] initState (-1) rfl).2 (by decide)

/-- Counterexample for C2: the claim predicts failure whenever the
reduction axes are not exactly the pair 1, 2, but a Mean op with
materialized axes [1, 2, 3] converts successfully, since the code checks
only the first two elements. -/
theorem convert_mean_axes_counterexample :
    convert_mean
      (mkOp "m" "Mean"
        [{ epNamed "x:0" with shape := [1, 7, 7, 16] },
         { epNamed "ax:0" with ival := [1, 2, 3] }]
        [epNamed "m:0"] []) initState =
      .ok
        { net :=
            { op :=
                [{ name := "m"
                   type := "Pooling"
                   input := ["x:0"]
                   output := ["m:0"]
                   output_shape := [[]]
                   arg := [{ name := mace_data_format_str, value := .i DataFormatNHWC },
                           { name := mace_pooling_type_str, value := .i PoolingType.AVG.value },
                           { name := mace_padding_str, value := .i PaddingMode.VALID.value },
                           { name := mace_strides_str, value := .ints [1, 1] },
                           { name := mace_kernel_str, value := .ints [7, 7] }] }]
              tensors := [] }
          skip := ["ax:0"] }
    ∧ ¬(([1, 2, 3] : List Int) = [1, 2]) := ⟨rfl, by decide⟩

/-- Claim C2 as amended: a Mean op with a constant axes input of at least
two elements fails with the unsupported-pattern error exactly when the
first two axes are not 1 and 2 (later elements are ignored); on success it
becomes an AVG Pooling op with VALID padding, stride [1, 1], kernel equal
to elements 1-2 of the first input static shape, the axes input dropped
and its endpoint skipped. -/
theorem convert_mean_spec (nm : String) (x axEp : TFEndpoint) (outs : List TFEndpoint)
    (attrs : List (String × AttrValue)) (st : ConvState)
    (a b : Int) (rest : List Int) (hax : axEp.ival = a :: b :: rest) :
    (convert_mean (mkOp nm "Mean" [x, axEp] outs attrs) st =
       .error (.maceCheck "Mean only support reduce dim 1, 2") ↔ ¬(a = 1 ∧ b = 2)) ∧
    (a = 1 ∧ b = 2 →
      convert_mean (mkOp nm "Mean" [x, axEp] outs attrs) st =
      .ok
        { net :=
            { st.net with op := st.net.op ++
                [{ name := nm
                   type := "Pooling"
                   input := [x.name]
                   output := outs.map TFEndpoint.name
                   output_shape := outs.map TFEndpoint.shape
                   arg := [{ name := mace_data_format_str, value := .i DataFormatNHWC },
                           { name := mace_pooling_type_str, value := .i PoolingType.AVG.value },
                           { name := mace_padding_str, value := .i PaddingMode.VALID.value },
                           { name := mace_strides_str, value := .ints [1, 1] },
                           { name := mace_kernel_str,
                             value := .ints ((x.shape.drop 1).take 2) }] }] }
          skip := axEp.name :: st.skip }) := by
  obtain ⟨anm, ash, aiv, afv, avd, apt, api⟩ := axEp
  replace hax : aiv = a :: b :: rest := hax
  subst hax
  unfold convert_mean mkOp
  simp only [convert_general_op, getInput, List.getElem?_cons_succ, List.getElem?_cons_zero,
    except_bind_ok, mace_check, List.map_cons, List.map_nil]
  by_cases hab : a = 1 ∧ b = 2
  · rw [if_pos hab]
    exact ⟨iff_of_false (fun hc => Except.noConfusion hc) (fun hn => hn hab), fun _ => rfl⟩
  · rw [if_neg hab]
    exact ⟨iff_of_true rfl hab, fun hc => absurd hc hab⟩

/-- Witness for C2: Mean over axes [1, 2] on an input of static shape
[1, 7, 7, 16] evaluates to an AVG Pooling op with kernel [7, 7] and stride
[1, 1]. -/
theorem convert_mean_spec_witness :
    convert_mean
      (mkOp "m" "Mean"
        [{ epNamed "x:0" with shape := [1, 7, 7, 16] },
         { epNamed "ax:0" with ival := [1, 2] }]
        [epNamed "m:0"] []) initState =
      .ok
        { net :=
            { op :=
                [{ name := "m"
                   type := "Pooling"
                   input := ["x:0"]
                   output := ["m:0"]
                   output_shape := [[]]
                   arg := [{ name := mace_data_format_str, value := .i DataFormatNHWC },
                           { name := mace_pooling_type_str, value := .i PoolingType.AVG.value },
                           { name := mace_padding_str, value := .i PaddingMode.VALID.value },
                           { name := mace_strides_str, value := .ints [1, 1] },
                           { name := mace_kernel_str, value := .ints [7, 7] }] }]
              tensors := [] }
          skip := ["ax:0"] } :=
  (convert_mean_spec "m" { epNamed "x:0" with shape := [1, 7, 7, 16] }
    { epNamed "ax:0" with ival := [1, 2] } [epNamed "m:0"] [] initState
    1 2 [] rfl).2 ⟨rfl, rfl⟩

theorem mergeSort_self_iff (l : List Int) :
    l = l.mergeSort (fun a b => decide (a ≤ b)) ↔ l.Sorted (· ≤ ·) := by
  constructor
  · intro h
    have hp := @List.sorted_mergeSort Int (fun a b => decide (a ≤ b))
      (fun a b c hab hbc => by simp only [decide_eq_true_iff] at hab hbc ⊢; omega)
      (fun a b => by simp only [Bool.or_eq_true, decide_eq_true_iff]; omega) l
    rw [← h] at hp
    exact hp.imp (fun hab => of_decide_eq_true hab)
  · intro h
    exact (List.mergeSort_eq_self h).symm

theorem sorted_lt_iff_of_nodup {l : List Int} (hnd : l.Nodup) :
    l.Sorted (· < ·) ↔ l.Sorted (· ≤ ·) := by
  constructor
  · exact fun h => h.imp (fun hab => le_of_lt hab)
  · intro h
    exact (h.and hnd).imp (fun hab => lt_of_le_of_ne hab.1 hab.2)

/-- Claim C5: a Transpose with a constant permutation input (a permutation
has no duplicate entries) fails with the unsupported-pattern error exactly
when the permutation is not strictly ascending; an ascending permutation
yields a bare Identity op with the permutation input dropped and its
endpoint skipped. -/
theorem convert_transpose_spec (nm : String) (x permEp : TFEndpoint)
    (outs : List TFEndpoint) (attrs : List (String × AttrValue)) (st : ConvState)
    (hnd : permEp.ival.Nodup) :
    (convert_transpose (mkOp nm "Transpose" [x, permEp] outs attrs) st =
       .error (.maceCheck
         "Transpose not supported yet, only internal transpose in composed ops might be supported")
      ↔ ¬ permEp.ival.Sorted (· < ·)) ∧
    (permEp.ival.Sorted (· < ·) →
      convert_transpose (mkOp nm "Transpose" [x, permEp] outs attrs) st =
      .ok
        { net :=
            { st.net with op := st.net.op ++
                [{ name := nm
                   type := "Identity"
                   input := [x.name]
                   output := outs.map TFEndpoint.name
                   output_shape := outs.map TFEndpoint.shape
                   arg := [{ name := mace_data_format_str, value := .i DataFormatNHWC }] }] }
          skip := permEp.name :: st.skip }) := by
  have key : permEp.ival = permEp.ival.mergeSort (fun a b => decide (a ≤ b))
      ↔ permEp.ival.Sorted (· < ·) := by
    rw [mergeSort_self_iff, sorted_lt_iff_of_nodup hnd]
  obtain ⟨pnm, psh, piv, pfv, pvd, ppt, ppi⟩ := permEp
  replace key : piv = piv.mergeSort (fun a b => decide (a ≤ b)) ↔ piv.Sorted (· < ·) := key
  unfold convert_transpose mkOp
  simp only [convert_general_op, getInput, List.getElem?_cons_succ, List.getElem?_cons_zero,
    except_bind_ok, mace_check, List.map_cons, List.map_nil]
  by_cases hs : piv.Sorted (· < ·)
  · rw [if_pos (key.mpr hs)]
    exact ⟨iff_of_false (fun hc => Except.noConfusion hc) (fun hn => hn hs), fun _ => rfl⟩
  · rw [if_neg (fun hc => hs (key.mp hc))]
    exact ⟨iff_of_true rfl hs, fun hc => absurd hc hs⟩

/-- Witness for C5: the identity permutation [0, 1, 2, 3] evaluates to a
bare Identity op with the permutation input dropped and skipped. -/
theorem convert_transpose_spec_witness :
    convert_transpose
      (mkOp "t" "Transpose" [epNamed "x:0", { epNamed "p:0" with ival := [0, 1, 2, 3] }]
        [epNamed "t:0"] []) initState =
      .ok
        { net :=
            { op :=
                [{ name := "t"
                   type := "Identity"
                   input := ["x:0"]
                   output := ["t:0"]
                   output_shape := [[]]
                   arg := [{ name := mace_data_format_str, value := .i DataFormatNHWC }] }]
              tensors := [] }
          skip := ["p:0"] } :=
  (convert_transpose_spec "t" (epNamed "x:0") { epNamed "p:0" with ival := [0, 1, 2, 3] }
    [epNamed "t:0"] [] initState (by decide)).2 (by decide)

/-- Claim C6: each convolution variant maps to its IR type with a padding
argument equal to the enum code of the string padding attribute and a
strides argument equal to elements 1-2 of the strides attribute; the
non-transposed variants additionally carry a dilations argument equal to
elements 1-2 of the dilations attribute, defaulting to [1, 1] when that
attribute is absent, while the transposed variant carries none. -/
theorem convert_conv2d_spec (nm : String) (ins outs : List TFEndpoint) (st : ConvState)
    (t irt : String) (pmode : PaddingMode) (sl : List Int) (dl : Option (List Int))
    (hvar : t = "Conv2D" ∧ irt = "Conv2D" ∨
            t = "DepthwiseConv2dNative" ∧ irt = "DepthwiseConv2d" ∨
            t = "Conv2DBackpropInput" ∧ irt = "Deconv2D") :
    padding_mode (padding_str_of pmode) = some pmode ∧
    convert_conv2d
      (mkOp nm t ins outs
        ([(tf_padding_str, .s (padding_str_of pmode)), (tf_strides_str, .ints sl)] ++
          (match dl with
           | some l => [(tf_dilations_str, AttrValue.ints l)]
           | none => []))) st =
    .ok (addOp st
      { name := nm
        type := irt
        input := ins.map TFEndpoint.name
        output := outs.map TFEndpoint.name
        output_shape := outs.map TFEndpoint.shape
        arg := [{ name := mace_data_format_str, value := .i DataFormatNHWC },
                { name := mace_padding_str, value := .i pmode.value },
                { name := mace_strides_str, value := .ints ((sl.drop 1).take 2) }] ++
          (if irt = "Deconv2D" then []
           else
             [{ name := mace_dilations_str,
                value := .ints
                  (match dl with
                   | some l => (l.drop 1).take 2
                   | none => [1, 1]) }]) }) := by
  refine ⟨by cases pmode <;> rfl, ?_⟩
  rcases hvar with ⟨rfl, rfl⟩ | ⟨rfl, rfl⟩ | ⟨rfl, rfl⟩ <;> cases dl <;> cases pmode <;> rfl

/-- Witness for C6: Conv2D with strides [1, 2, 2, 1], padding SAME and no
dilations attribute evaluates to an IR Conv2D with stride [2, 2], the SAME
code and dilation [1, 1]. -/
theorem convert_conv2d_spec_witness :
    convert_conv2d
      (mkOp "c" "Conv2D" [epNamed "x:0", epNamed "w:0"] [epNamed "c:0"]
        [(tf_padding_str, .s "SAME"), (tf_strides_str, .ints [1, 2, 2, 1])]) initState =
    .ok (addOp initState
      { name := "c"
        type := "Conv2D"
        input := ["x:0", "w:0"]
        output := ["c:0"]
        output_shape := [[]]
        arg := [{ name := mace_data_format_str, value := .i DataFormatNHWC },
                { name := mace_padding_str, value := .i PaddingMode.SAME.value },
                { name := mace_strides_str, value := .ints [2, 2] },
                { name := mace_dilations_str, value := .ints [1, 1] }] }) :=
  (convert_conv2d_spec "c" [epNamed "x:0", epNamed "w:0"] [epNamed "c:0"] initState
    "Conv2D" "Conv2D" .SAME [1, 2, 2, 1] none (Or.inl ⟨rfl, rfl⟩)).2

/-- Counterexample for C1: the claim derives the synthesized tensor names
from the op name with its final slash-delimited segment removed, but for a
FusedBatchNorm op named without any slash the code uses the whole name as
the scope: the synthesized tensor is named bn/scale:0, not /scale:0 as the
claim predicts. -/
theorem convert_fused_batchnorm_scope_counterexample :
    convert_fused_batchnorm (fun q => q)
      (mkOp "bn" "FusedBatchNorm"
        [epNamed "x:0", epNamed "g:0", epNamed "b:0", epNamed "m:0", epNamed "v:0"]
        [epNamed "bn:0"] [(tf_epsilon_str, .f 0)]) initState =
      .ok
        { net :=
            { op :=
                [{ name := "bn"
                   type := "FoldedBatchNorm"
                   input := ["x:0", "bn/scale:0", "bn/offset:0"]
                   output := ["bn:0"]
                   output_shape := [[]]
                   arg := [{ name := mace_data_format_str, value := .i DataFormatNHWC }] }]
              tensors :=
                [{ name := "bn/scale:0", dims := [0], data_type := .DT_FLOAT,
                   float_data := [], int32_data := [] },
                 { name := "bn/offset:0", dims := [0], data_type := .DT_FLOAT,
                   float_data := [], int32_data := [] }] }
          skip := ["g:0", "b:0", "m:0", "v:0"] }
    ∧ "bn/scale:0" ≠ scope_per_claim "bn" ++ "/scale:0" := ⟨rfl, by decide⟩

/-- Claim C1 as amended: a FusedBatchNorm op with constant parameter
inputs gamma, beta, mean and variance and scalar epsilon becomes one
FoldedBatchNorm op whose 4 parameter inputs are replaced by the 2
synthesized tensors named scale:0 and offset:0 under the get_scope prefix
of the op name (the name up to the last slash, or the whole name when it
has no slash), with payloads scale = gamma / sqrt(variance + epsilon) and
offset = beta - mean * scale elementwise; both tensors are appended to the
pool, the 4 parameter endpoints are skipped, and only the first source
output is kept. -/
theorem convert_fused_batchnorm_folds (sq : ℚ → ℚ) (nm : String)
    (x g b m v : TFEndpoint) (outs : List TFEndpoint) (eps : ℚ) (st : ConvState) :
    convert_fused_batchnorm sq
      (mkOp nm "FusedBatchNorm" [x, g, b, m, v] outs [(tf_epsilon_str, .f eps)]) st =
    .ok
      { net :=
          { op := st.net.op ++
              [{ name := nm
                 type := "FoldedBatchNorm"
                 input := [x.name, get_scope nm ++ "/scale:0", get_scope nm ++ "/offset:0"]
                 output := (outs.map TFEndpoint.name).take 1
                 output_shape := (outs.map TFEndpoint.shape).take 1
                 arg := [{ name := mace_data_format_str, value := .i DataFormatNHWC }] }]
            tensors := st.net.tensors ++
              [{ name := get_scope nm ++ "/scale:0"
                 dims := [((List.zipWith (fun vv gg => gg / sq (vv + eps))
                     v.fval g.fval).length : Int)]
                 data_type := .DT_FLOAT
                 float_data := List.zipWith (fun vv gg => gg / sq (vv + eps)) v.fval g.fval
                 int32_data := [] },
               { name := get_scope nm ++ "/offset:0"
                 dims := [((List.zipWith3 (fun mm ss bb => bb - mm * ss) m.fval
                     (List.zipWith (fun vv gg => gg / sq (vv + eps)) v.fval g.fval)
                     b.fval).length : Int)]
                 data_type := .DT_FLOAT
                 float_data := List.zipWith3 (fun mm ss bb => bb - mm * ss) m.fval
                   (List.zipWith (fun vv gg => gg / sq (vv + eps)) v.fval g.fval) b.fval
                 int32_data := [] }] }
        skip := [g.name, b.name, m.name, v.name] ++ st.skip } := by
  have hs : List.zipWith (fun vv gg => 1 / sq (vv + eps) * gg) v.fval g.fval
      = List.zipWith (fun vv gg => gg / sq (vv + eps)) v.fval g.fval :=
    zipWith_fun_ext _ _ (fun a2 b2 => by rw [one_div, div_eq_mul_inv, mul_comm]) _ _
  have ho : List.zipWith3 (fun mm ss bb => -mm * ss + bb) m.fval
        (List.zipWith (fun vv gg => gg / sq (vv + eps)) v.fval g.fval) b.fval
      = List.zipWith3 (fun mm ss bb => bb - mm * ss) m.fval
        (List.zipWith (fun vv gg => gg / sq (vv + eps)) v.fval g.fval) b.fval :=
    zipWith3_fun_ext _ _ (fun a2 b2 c2 => by ring) _ _ _
  rw [← ho, ← hs]
  unfold convert_fused_batchnorm mkOp
  simp only [getInput, getAttr, asFloat, List.getElem?_cons_succ, List.getElem?_cons_zero,
    except_bind_ok, List.lookup, beq_self_eq_true, convert_general_op, addOp, skipUpdate,
    add_tensor, List.map_cons, List.map_nil]
  rw [List.append_assoc]
  rfl

theorem convert_tensors_eq (ops : List TFOp) (st : ConvState) :
    convert_tensors ops st =
      match mapExcept emit_tensor
          (ops.filter (fun op => decide (op.type = "Const") &&
            match op.outputs with
            | o :: _ => decide (¬ o.name ∈ st.skip)
            | [] => true)) with
      | .ok ts => .ok { st with net := { st.net with tensors := st.net.tensors ++ ts } }
      | .error e => .error e := by
  induction ops generalizing st with
  | nil =>
    simp [convert_tensors, mapExcept]
  | cons tfop rest ih =>
    by_cases hc : tfop.type = "Const"
    · cases houts : tfop.outputs with
      | nil =>
        have he : emit_tensor tfop = .error .indexError := by
          simp [emit_tensor, houts, except_bind_error]
        simp [convert_tensors, hc, houts, List.filter_cons, mapExcept, he, except_bind_error]
      | cons o os =>
        by_cases hskip : o.name ∈ st.skip
        · simp [convert_tensors, hc, houts, hskip, List.filter_cons, ih]
        · cases he : emit_tensor tfop with
          | error e =>
            simp [convert_tensors, hc, houts, hskip, List.filter_cons, mapExcept, he,
              except_bind_error]
          | ok t =>
            rw [convert_tensors]
            simp only [hc, if_true, houts, hskip, if_false, he, except_bind_ok, if_pos rfl]
            rw [ih]
            simp only [List.filter_cons, hc, decide_True, houts, hskip, decide_not,
              Bool.true_and]
            simp only [mapExcept, he, except_bind_ok]
            split <;> rename_i hm
            · rw [hm, except_bind_ok]
              simp
            · rw [hm, except_bind_error]
    · simp [convert_tensors, hc, List.filter_cons, ih]

/-- Claim C7: the tensor-emission pass emits, in original order, exactly
the Const source ops whose first output endpoint is not in the skip set,
each exactly once, copying the materialized dims and flat payload; a
32-bit-float constant gets dtype FLOAT, a 32-bit-integer constant gets
INT32, and any other dtype fails with the unsupported-tensor-type error. -/
theorem convert_tensors_spec (ops : List TFOp) (st : ConvState) (nm2 dn : String)
    (ins2 outs2 : List TFEndpoint) (o : TFEndpoint) :
    (convert_tensors ops st =
      match mapExcept emit_tensor
          (ops.filter (fun op => decide (op.type = "Const") &&
            match op.outputs with
            | o :: _ => decide (¬ o.name ∈ st.skip)
            | [] => true)) with
      | .ok ts => .ok { st with net := { st.net with tensors := st.net.tensors ++ ts } }
      | .error e => .error e) ∧
    (emit_tensor (mkOp nm2 "Const" ins2 (o :: outs2) [("dtype", .dt .float32)]) =
      .ok { name := o.name, dims := o.valueDims, data_type := .DT_FLOAT,
            float_data := o.fval, int32_data := [] }) ∧
    (emit_tensor (mkOp nm2 "Const" ins2 (o :: outs2) [("dtype", .dt .int32)]) =
      .ok { name := o.name, dims := o.valueDims, data_type := .DT_INT32,
            float_data := [], int32_data := o.ival }) ∧
    (emit_tensor (mkOp nm2 "Const" ins2 (o :: outs2) [("dtype", .dt (.other dn))]) =
      .error (.maceCheck ("Not supported tensor type: " ++ dn))) :=
  ⟨convert_tensors_eq ops st, rfl, rfl, rfl⟩

theorem takeRight2_append0 (s : String) : takeRight2 (s ++ ":0") = ":0" := by
  obtain ⟨l⟩ := s
  show String.mk ((l ++ [':', '0']).drop ((l ++ [':', '0']).length - 2)) = ":0"
  rw [List.length_append, show l.length + ([':', '0'] : List Char).length - 2 = l.length
    from by simp, List.drop_left]

theorem dropRight2_append0 (s : String) : dropRight2 (s ++ ":0") = s := by
  obtain ⟨l⟩ := s
  show String.mk ((l ++ [':', '0']).take ((l ++ [':', '0']).length - 2)) = String.mk l
  rw [List.length_append, show l.length + ([':', '0'] : List Char).length - 2 = l.length
    from by simp, List.take_left]

theorem split_suffix0 (s : String) (h : takeRight2 s = ":0") : s = dropRight2 s ++ ":0" := by
  obtain ⟨l⟩ := s
  show String.mk l = String.mk (l.take (l.length - 2) ++ [':', '0'])
  have hdrop : l.drop (l.length - 2) = [':', '0'] := congrArg String.data h
  rw [← hdrop, List.take_append_drop]

theorem colon_not_suffix_form : ∀ p : String, (":" : String) ≠ p ++ ":0" := by
  intro p h
  have h2 : ([':'] : List Char) = p.data ++ [':', '0'] := congrArg String.data h
  have h3 := congrArg List.length h2
  simp only [List.length_append, List.length_cons, List.length_nil] at h3
  omega

/-- Claim C8: the final rewriting pass maps every op input through the
input rule and every output through the output rule; an endpoint of the
exact form node:0 is rewritten to the bare node name when, for inputs, the
node is a declared graph input or graph output and, for outputs, a
declared graph output; endpoints not of that form, or whose node matches
no boundary name, are unchanged. -/
theorem replace_endpoint_names_spec (cfg : ConversionConfig) (net : NetDef)
    (nm s : String) :
    ((replace_input_output_tensor_name cfg net).op = net.op.map (fun op =>
      { op with
        input := op.input.map (replace_in_name cfg)
        output := op.output.map (replace_out_name cfg) })) ∧
    (nm ∈ cfg.input_nodes ∨ nm ∈ cfg.output_nodes →
      replace_in_name cfg (nm ++ ":0") = nm) ∧
    (nm ∈ cfg.output_nodes → replace_out_name cfg (nm ++ ":0") = nm) ∧
    (¬ nm ∈ cfg.input_nodes → ¬ nm ∈ cfg.output_nodes →
      replace_in_name cfg (nm ++ ":0") = nm ++ ":0") ∧
    (¬ nm ∈ cfg.output_nodes → replace_out_name cfg (nm ++ ":0") = nm ++ ":0") ∧
    ((∀ p : String, s ≠ p ++ ":0") →
      replace_in_name cfg s = s ∧ replace_out_name cfg s = s) := by
  refine ⟨rfl, ?_, ?_, ?_, ?_, ?_⟩
  · intro h
    simp [replace_in_name, takeRight2_append0, dropRight2_append0, h]
  · intro h
    simp [replace_out_name, takeRight2_append0, dropRight2_append0, h]
  · intro h1 h2
    simp [replace_in_name, takeRight2_append0, dropRight2_append0, h1, h2]
  · intro h1
    simp [replace_out_name, takeRight2_append0, dropRight2_append0, h1]
  · intro h
    have hne : ¬ takeRight2 s = ":0" := fun hc => h (dropRight2 s) (split_suffix0 s hc)
    constructor
    · simp [replace_in_name, hne]
    · simp [replace_out_name, hne]

/-- Witness for C8: with declared input inp and output out, the input
endpoint out:0 is rewritten to out, the input endpoint w:0 is unchanged,
and the one-character endpoint with no node:0 form is unchanged. -/
theorem replace_endpoint_names_spec_witness :
    replace_in_name { input_nodes := ["inp"], output_nodes := ["out"] } ("out" ++ ":0") = "out"
    ∧ replace_in_name { input_nodes := ["inp"], output_nodes := ["out"] } ("w" ++ ":0")
        = "w" ++ ":0"
    ∧ replace_in_name { input_nodes := ["inp"], output_nodes := ["out"] } ":" = ":" :=
  ⟨(replace_endpoint_names_spec { input_nodes := ["inp"], output_nodes := ["out"] }
      { op := [], tensors := [] } "out" ":").2.1 (Or.inr (by decide)),
   (replace_endpoint_names_spec { input_nodes := ["inp"], output_nodes := ["out"] }
      { op := [], tensors := [] } "w" ":").2.2.2.1 (by decide) (by decide),
   ((replace_endpoint_names_spec { input_nodes := ["inp"], output_nodes := ["out"] }
      { op := [], tensors := [] } "w" ":").2.2.2.2.2 colon_not_suffix_form).1⟩

/-- Claim C9: conversion is a deterministic function of the source graph
and the configuration; equal inputs give equal results or equal failures.
The pass is embedded as a pure function of the op sequence and the
configuration (for a fixed external square root), so determinism holds by
construction; the python skip set is only membership-tested, never
iterated, so no set iteration order can leak into the result. -/
theorem runConverter_deterministic (sq : ℚ → ℚ) (ops1 ops2 : List TFOp)
    (cfg1 cfg2 : ConversionConfig) (h1 : ops1 = ops2) (h2 : cfg1 = cfg2) :
    runConverter sq ops1 cfg1 = runConverter sq ops2 cfg2 := by
  rw [h1, h2]

/-- Witness for C9: a two-op graph (Placeholder plus Softmax) converts
twice to the same IR, evaluated concretely, with the boundary endpoints
renamed by the final pass. -/
theorem runConverter_deterministic_witness :
    runConverter (fun q => q)
      [mkOp "inp" "Placeholder" [] [{ epNamed "inp:0" with shape := [1, 10] }] [],
       mkOp "sm" "Softmax" [{ epNamed "inp:0" with shape := [1, 10] }]
         [{ epNamed "sm:0" with shape := [1, 10] }] []]
      { input_nodes := ["inp"], output_nodes := ["sm"] } =
    runConverter (fun q => q)
      [mkOp "inp" "Placeholder" [] [{ epNamed "inp:0" with shape := [1, 10] }] [],
       mkOp "sm" "Softmax" [{ epNamed "inp:0" with shape := [1, 10] }]
         [{ epNamed "sm:0" with shape := [1, 10] }] []]
      { input_nodes := ["inp"], output_nodes := ["sm"] }
    ∧ runConverter (fun q => q)
      [mkOp "inp" "Placeholder" [] [{ epNamed "inp:0" with shape := [1, 10] }] [],
       mkOp "sm" "Softmax" [{ epNamed "inp:0" with shape := [1, 10] }]
         [{ epNamed "sm:0" with shape := [1, 10] }] []]
      { input_nodes := ["inp"], output_nodes := ["sm"] } =
    .ok
      { op :=
          [{ name := "sm"
             type := "Softmax"
             input := ["inp"]
             output := ["sm"]
             output_shape := [[1, 10]]
             arg := [{ name := mace_data_format_str, value := .i DataFormatNHWC }] }]
        tensors := [] } :=
  ⟨runConverter_deterministic (fun q => q) _ _ _ _ rfl rfl, rfl⟩
